import Mathlib

/-!
Shallow embedding of tensorflow/python/platform/default/_gfile.py.

The file wraps a Python 2 file object.  We model:
  - the Python exception class hierarchy relevant to the module
    (ValueError, IOError, OSError, and the two classes the module defines:
    FileError < IOError and GOSError < OSError);
  - exception values, including construction from another exception
    (FileError(e)) and attribute assignment (e.filename = self._name);
  - the two normalizing wrappers: _GFileBase._error_wrapper (has access to
    self._name) and _func_error_wrapper (free functions, no path);
  - the file state (byte content, byte offset, closed flag) and the raw
    Python 2 file-object operations the methods delegate to;
  - the handle methods, each the composition error_wrapper after raw op;
  - the locking layer (_synchronized with _Pythonlocker or _Nulllocker),
    with lock hold counts made explicit and a blocked acquisition modeled
    as Option.none;
  - a small filesystem model for the free functions (Remove, rmtree,
    DeleteRecursively, ListDirectory).
-/

/-- Python exception classes used by the module.  FileError and GOSError are
the two classes _gfile.py declares; the rest are the builtin classes its
wrappers catch, with Python 2 parentage (IOError and OSError both derive
from EnvironmentError), plus TypeError, which file.truncate raises on a
non-integer size argument and which no wrapper clause catches. -/
inductive PyClass where
  | exceptionC
  | valueErrorC
  | typeErrorC
  | environmentErrorC
  | ioErrorC
  | osErrorC
  | fileErrorC
  | gosErrorC
  deriving DecidableEq, Repr

/-- The inclusive chain of superclasses of a class, per the Python 2 class
hierarchy and the two class statements in _gfile.py
(class FileError(IOError), class GOSError(OSError)). -/
def ancestors : PyClass → List PyClass
  | .exceptionC => [.exceptionC]
  | .valueErrorC => [.valueErrorC, .exceptionC]
  | .typeErrorC => [.typeErrorC, .exceptionC]
  | .environmentErrorC => [.environmentErrorC, .exceptionC]
  | .ioErrorC => [.ioErrorC, .environmentErrorC, .exceptionC]
  | .osErrorC => [.osErrorC, .environmentErrorC, .exceptionC]
  | .fileErrorC => [.fileErrorC, .ioErrorC, .environmentErrorC, .exceptionC]
  | .gosErrorC => [.gosErrorC, .osErrorC, .environmentErrorC, .exceptionC]

/-- c is d or derives from d; this is the relation an `except d:` clause
uses to decide whether it catches an exception of class c. -/
def isSubclass (c d : PyClass) : Bool := (ancestors c).contains d

/-- A Python exception value: either constructed from plain arguments
(errno-style code, message, filename), or constructed from a single other
exception, as in FileError(e) / GOSError(e), which leaves the new
exception wrapping the original.  The filename slot on a wrapping
exception models a later attribute assignment. -/
inductive PyExc where
  | base (cls : PyClass) (code : Option Int) (msg : String) (filename : Option String)
  | wrap (cls : PyClass) (filename : Option String) (inner : PyExc)
  deriving DecidableEq, Repr

/-- Class of an exception value. -/
def PyExc.cls : PyExc → PyClass
  | .base c _ _ _ => c
  | .wrap c _ _ => c

/-- Message payload of an exception (Python 2 e.message for a base
exception; for a wrapping exception the message of the wrapped one, since
its printable content is the wrapped exception). -/
def PyExc.pymsg : PyExc → String
  | .base _ _ m _ => m
  | .wrap _ _ inner => inner.pymsg

/-- Attribute assignment e.filename = name. -/
def PyExc.setFilename (name : String) : PyExc → PyExc
  | .base c code m _ => .base c code m (some name)
  | .wrap c _ inner => .wrap c (some name) inner

/-- The exception wrapped inside a wrapping exception, if any
(args[0] of FileError(e) / GOSError(e)). -/
def PyExc.innerOf : PyExc → Option PyExc
  | .base _ _ _ _ => none
  | .wrap _ _ inner => some inner

/-- The pathname an exception carries: its own filename slot, else the
one of the exception it wraps. -/
def carriedPath : PyExc → Option String
  | .base _ _ _ f => f
  | .wrap _ f inner =>
    match f with
    | some x => some x
    | none => carriedPath inner

/-- errno.EIO -/
def eioCode : Int := 5
/-- errno.ENOENT -/
def enoentCode : Int := 2
/-- errno.EISDIR -/
def eisdirCode : Int := 21
/-- errno.EINVAL -/
def einvalCode : Int := 22

/-- _GFileBase._error_wrapper: try the operation; on ValueError raise
FileError(errno.EIO, e.message, self._name); on IOError set e.filename to
self._name and raise FileError(e); on OSError raise GOSError(e); any
other exception propagates unchanged. -/
def errorWrapper {α : Type} (name : String) (r : Except PyExc α) : Except PyExc α :=
  match r with
  | .ok v => .ok v
  | .error e =>
    if isSubclass e.cls .valueErrorC then
      .error (.base .fileErrorC (some eioCode) e.pymsg (some name))
    else if isSubclass e.cls .ioErrorC then
      .error (.wrap .fileErrorC none (e.setFilename name))
    else if isSubclass e.cls .osErrorC then
      .error (.wrap .gosErrorC none e)
    else
      .error e

/-- _func_error_wrapper: like _error_wrapper but for free functions, with
no handle path available: ValueError becomes FileError(errno.EIO,
e.message), IOError becomes FileError(e) with no filename assignment,
OSError becomes GOSError(e). -/
def funcErrorWrapper {α : Type} (r : Except PyExc α) : Except PyExc α :=
  match r with
  | .ok v => .ok v
  | .error e =>
    if isSubclass e.cls .valueErrorC then
      .error (.base .fileErrorC (some eioCode) e.pymsg none)
    else if isSubclass e.cls .ioErrorC then
      .error (.wrap .fileErrorC none e)
    else if isSubclass e.cls .osErrorC then
      .error (.wrap .gosErrorC none e)
    else
      .error e

/-- An exception of one of the raw platform classes the wrappers catch. -/
def rawPlatform (e : PyExc) : Bool :=
  e.cls = .valueErrorC || e.cls = .ioErrorC || e.cls = .osErrorC

/-- An exception of one of the two normalized classes the module defines. -/
def normalizedExc (e : PyExc) : Bool :=
  e.cls = .fileErrorC || e.cls = .gosErrorC

/-- State of an open Python 2 file object: byte content of the file, the
current byte offset, and whether close() has run. -/
structure FileSt where
  content : List Nat
  offset : Nat
  closed : Bool
  deriving DecidableEq, Repr

/-- A _GFileBase instance: self._name, self._mode, and the state of
self._fp.  The locking layer is modeled separately (LHandle below). -/
structure Handle where
  name : String
  mode : String
  fileSt : FileSt
  deriving DecidableEq, Repr

/-- The ValueError a Python 2 file object raises when an operation is
attempted after close(). -/
def closedErr : PyExc :=
  .base .valueErrorC none "I/O operation on closed file" none

/-- Write data into content at the given offset, zero-padding if the
offset is past the end (POSIX write after seek past end-of-file). -/
def writeAt (content : List Nat) (off : Nat) (data : List Nat) : List Nat :=
  content.take off ++ List.replicate (off - content.length) 0
    ++ data ++ content.drop (off + data.length)

/-- File state after writing data at the current offset. -/
def writeSt (st : FileSt) (data : List Nat) : FileSt :=
  { st with content := writeAt st.content st.offset data,
            offset := st.offset + data.length }

/-- self._fp.tell() -/
def rawTell (st : FileSt) : Except PyExc Nat × FileSt :=
  if st.closed then (.error closedErr, st) else (.ok st.offset, st)

/-- self._fp.seek(offset, whence): whence 0 is absolute, 1 relative to the
current offset, 2 relative to end-of-file; a negative resulting position
or an unsupported whence is an IOError(EINVAL). -/
def rawSeek (off : Int) (whence : Nat) (st : FileSt) : Except PyExc Unit × FileSt :=
  if st.closed then (.error closedErr, st)
  else if whence = 0 then
    if off < 0 then (.error (.base .ioErrorC (some einvalCode) "Invalid argument" none), st)
    else (.ok (), { st with offset := off.toNat })
  else if whence = 1 then
    let target : Int := (st.offset : Int) + off
    if target < 0 then (.error (.base .ioErrorC (some einvalCode) "Invalid argument" none), st)
    else (.ok (), { st with offset := target.toNat })
  else if whence = 2 then
    let target : Int := (st.content.length : Int) + off
    if target < 0 then (.error (.base .ioErrorC (some einvalCode) "Invalid argument" none), st)
    else (.ok (), { st with offset := target.toNat })
  else (.error (.base .ioErrorC (some einvalCode) "Invalid argument" none), st)

/-- self._fp.read(n): read up to n bytes from the current offset, or to
end-of-file when n is negative. -/
def rawRead (n : Int) (st : FileSt) : Except PyExc (List Nat) × FileSt :=
  if st.closed then (.error closedErr, st)
  else
    let rest := st.content.drop st.offset
    let out := if n < 0 then rest else rest.take n.toNat
    (.ok out, { st with offset := st.offset + out.length })

/-- self._fp.write(data) -/
def rawWrite (data : List Nat) (st : FileSt) : Except PyExc Unit × FileSt :=
  if st.closed then (.error closedErr, st) else (.ok (), writeSt st data)

/-- self._fp.writelines(seq) -/
def rawWritelines (seqs : List (List Nat)) (st : FileSt) : Except PyExc Unit × FileSt :=
  if st.closed then (.error closedErr, st) else (.ok (), seqs.foldl writeSt st)

/-- One line from the front of a byte list: everything up to and
including the first newline byte, or all of it if there is none. -/
def takeLine : List Nat → List Nat
  | [] => []
  | b :: bs => if b = 10 then [10] else b :: takeLine bs

/-- self._fp.readline(max_length): one line, at most max_length bytes when
max_length is non-negative. -/
def rawReadline (maxLength : Int) (st : FileSt) : Except PyExc (List Nat) × FileSt :=
  if st.closed then (.error closedErr, st)
  else
    let line := takeLine (st.content.drop st.offset)
    let out := if maxLength < 0 then line else line.take maxLength.toNat
    (.ok out, { st with offset := st.offset + out.length })

/-- Split a byte list into lines, each keeping its trailing newline. -/
def splitLinesAux : List Nat → List Nat → List (List Nat)
  | [], acc => if acc.isEmpty then [] else [acc.reverse]
  | b :: bs, acc =>
    if b = 10 then (acc.reverse ++ [10]) :: splitLinesAux bs []
    else splitLinesAux bs (b :: acc)

/-- All lines of a byte list. -/
def splitLines (l : List Nat) : List (List Nat) := splitLinesAux l []

/-- Whole lines until about hint bytes have been consumed
(file.readlines(sizehint) semantics). -/
def takeHint : Nat → List (List Nat) → List (List Nat)
  | _, [] => []
  | hint, l :: ls => l :: (if l.length < hint then takeHint (hint - l.length) ls else [])

/-- self._fp.readlines() / self._fp.readlines(sizehint) -/
def rawReadlines (sizehint : Option Nat) (st : FileSt) : Except PyExc (List (List Nat)) × FileSt :=
  if st.closed then (.error closedErr, st)
  else
    let allLines := splitLines (st.content.drop st.offset)
    let out :=
      match sizehint with
      | none => allLines
      | some s => takeHint s allLines
    (.ok out, { st with offset := st.offset + (out.map List.length).sum })

/-- self._fp.truncate(new_size): the closed check comes first
(ValueError); then Python 2 file.truncate converts the explicitly passed
size object with an integer conversion, so the None the source passes by
default raises TypeError("an integer is required"); with an integer size
the file is truncated (or zero-extended) to that size, offset unchanged. -/
def rawTruncate (newSize : Option Nat) (st : FileSt) : Except PyExc Unit × FileSt :=
  if st.closed then (.error closedErr, st)
  else
    match newSize with
    | none => (.error (.base .typeErrorC none "an integer is required" none), st)
    | some sz =>
      (.ok (), { st with content := st.content.take sz ++ List.replicate (sz - st.content.length) 0 })

/-- self._fp.flush() -/
def rawFlush (st : FileSt) : Except PyExc Unit × FileSt :=
  if st.closed then (.error closedErr, st) else (.ok (), st)

/-- self._fp.close(): sets the closed flag; a second close is a no-op
(Python 2 file.close is idempotent). -/
def rawClose (st : FileSt) : Except PyExc Unit × FileSt :=
  (.ok (), { st with closed := true })

/-- self._fp.closed -/
def rawClosed (st : FileSt) : Except PyExc Bool × FileSt :=
  (.ok st.closed, st)

/-- next(self._fp): none signals StopIteration (normal exhaustion of the
iteration protocol, not an error). -/
def rawNext (st : FileSt) : Except PyExc (Option (List Nat)) × FileSt :=
  if st.closed then (.error closedErr, st)
  else
    let rest := st.content.drop st.offset
    if rest.isEmpty then (.ok none, st)
    else
      let line := takeLine rest
      (.ok (some line), { st with offset := st.offset + line.length })

/-- A _GFileBase method body: run the raw file-object operation and pass
its outcome through _error_wrapper with self._name. -/
def method {α : Type} (raw : FileSt → Except PyExc α × FileSt) (h : Handle) :
    Except PyExc α × Handle :=
  let (r, st) := raw h.fileSt
  (errorWrapper h.name r, { h with fileSt := st })

/-- _GFileBase.read -/
def Handle.read (h : Handle) (n : Int) : Except PyExc (List Nat) × Handle :=
  method (rawRead n) h

/-- _GFileBase.write -/
def Handle.write (h : Handle) (data : List Nat) : Except PyExc Unit × Handle :=
  method (rawWrite data) h

/-- _GFileBase.writelines -/
def Handle.writelines (h : Handle) (seqs : List (List Nat)) : Except PyExc Unit × Handle :=
  method (rawWritelines seqs) h

/-- _GFileBase.tell -/
def Handle.tell (h : Handle) : Except PyExc Nat × Handle :=
  method rawTell h

/-- _GFileBase.seek -/
def Handle.seek (h : Handle) (off : Int) (whence : Nat) : Except PyExc Unit × Handle :=
  method (rawSeek off whence) h

/-- _GFileBase.truncate -/
def Handle.truncate (h : Handle) (newSize : Option Nat) : Except PyExc Unit × Handle :=
  method (rawTruncate newSize) h

/-- _GFileBase.readline -/
def Handle.readline (h : Handle) (maxLength : Int) : Except PyExc (List Nat) × Handle :=
  method (rawReadline maxLength) h

/-- _GFileBase.readlines -/
def Handle.readlines (h : Handle) (sizehint : Option Nat) : Except PyExc (List (List Nat)) × Handle :=
  method (rawReadlines sizehint) h

/-- _GFileBase.flush -/
def Handle.flush (h : Handle) : Except PyExc Unit × Handle :=
  method rawFlush h

/-- _GFileBase.close -/
def Handle.close (h : Handle) : Except PyExc Unit × Handle :=
  method rawClose h

/-- _GFileBase.closed (property) -/
def Handle.closedProp (h : Handle) : Except PyExc Bool × Handle :=
  method rawClosed h

/-- _GFileBase.next (line iteration; not synchronized) -/
def Handle.next (h : Handle) : Except PyExc (Option (List Nat)) × Handle :=
  method rawNext h

/-- _GFileBase.__exit__: the with-statement exit calls self.close(). -/
def Handle.exitWith (h : Handle) : Except PyExc Unit × Handle :=
  h.close

/-- Which internal call of _GFileBase.Size the platform makes fail, if
any: the initial tell, the seek to end-of-file, or the tell that reads
the size.  The restoring seek in the finally block goes back to a saved
valid offset and succeeds. -/
inductive SizeFault where
  | ok
  | tell1
  | seekEnd
  | tell2
  deriving DecidableEq, Repr

/-- self.tell() as called inside Size, with an injectable platform
failure: when the fault fires, the raw call raises inj and the method
wrapper normalizes it, leaving the state unchanged. -/
def tellOr (fire : Bool) (inj : PyExc) (h : Handle) : Except PyExc Nat × Handle :=
  if fire then (errorWrapper h.name (.error inj), h) else h.tell

/-- self.seek(0, 2) as called inside Size, with an injectable platform
failure. -/
def seekEndOr (fire : Bool) (inj : PyExc) (h : Handle) : Except PyExc Unit × Handle :=
  if fire then (errorWrapper h.name (.error inj), h) else h.seek 0 2

/-- The body of _GFileBase.Size: cur = self.tell(); try: self.seek(0, 2);
size = self.tell() finally: self.seek(cur); return size.  The finally
block runs on every exit from the try block; an exception from it
replaces the pending result. -/
def sizeBody (h : Handle) (fault : SizeFault) (inj : PyExc) : Except PyExc Nat × Handle :=
  let (rcur, h1) := tellOr (fault == .tell1) inj h
  match rcur with
  | .error e => (.error e, h1)
  | .ok cur =>
    let (rseek, h2) := seekEndOr (fault == .seekEnd) inj h1
    match rseek with
    | .error e =>
      let (rfin, h3) := h2.seek (cur : Int) 0
      match rfin with
      | .error e2 => (.error e2, h3)
      | .ok _ => (.error e, h3)
    | .ok _ =>
      let (rsz, h3) := tellOr (fault == .tell2) inj h2
      let (rfin, h4) := h3.seek (cur : Int) 0
      match rsz with
      | .error e => (.error e, h4)
      | .ok size =>
        match rfin with
        | .error e2 => (.error e2, h4)
        | .ok _ => (.ok size, h4)

/-- _GFileBase.Size: the body above under the method error wrapper. -/
def Handle.Size (h : Handle) (fault : SizeFault) (inj : PyExc) : Except PyExc Nat × Handle :=
  let (r, h2) := sizeBody h fault inj
  (errorWrapper h.name r, h2)

/-- The two locking strategies a handle can be wired to: _Pythonlocker
(threading.RLock, reentrant) for GFile and _Nulllocker (no-op) for
FastGFile. -/
inductive LockerKind where
  | python
  | null
  deriving DecidableEq, Repr

/-- locker.lock() by the thread running the operation, given the number
of times that thread already holds the lock; none means the call blocks
forever (deadlock).  An RLock acquisition by the holder always succeeds
and increments the hold count; the null locker does nothing. -/
def acquire : LockerKind → Nat → Option Nat
  | .python, c => some (c + 1)
  | .null, c => some c

/-- locker.unlock(): decrement the hold count for the RLock, no-op for
the null locker. -/
def release : LockerKind → Nat → Nat
  | .python, c => c - 1
  | .null, c => c

/-- A handle together with its locking strategy and the current hold
count of the running thread. -/
structure LHandle where
  h : Handle
  kind : LockerKind
  count : Nat
  deriving DecidableEq, Repr

/-- _GFileBase._synchronized: self._locker.lock(); try the body; finally
self._locker.unlock().  none propagates a blocked (deadlocked)
acquisition. -/
def synchronizedRun {α : Type} (fn : LHandle → Option (Except PyExc α × LHandle))
    (s : LHandle) : Option (Except PyExc α × LHandle) :=
  match acquire s.kind s.count with
  | none => none
  | some c1 =>
    match fn { s with count := c1 } with
    | none => none
    | some (r, s2) => some (r, { s2 with count := release s2.kind s2.count })

/-- A synchronized _GFileBase method: error wrapper outside, lock inside,
raw file-object operation at the core (the decorator order in the
source is @_error_wrapper above @_synchronized). -/
def lmethod {α : Type} (raw : FileSt → Except PyExc α × FileSt) (s : LHandle) :
    Option (Except PyExc α × LHandle) :=
  match synchronizedRun (fun s1 =>
      let (r, st) := raw s1.h.fileSt
      some (r, { s1 with h := { s1.h with fileSt := st } })) s with
  | none => none
  | some (r, s2) => some (errorWrapper s.h.name r, s2)

/-- Synchronized tell. -/
def LHandle.tellL (s : LHandle) : Option (Except PyExc Nat × LHandle) :=
  lmethod rawTell s

/-- Synchronized seek. -/
def LHandle.seekL (s : LHandle) (off : Int) (whence : Nat) :
    Option (Except PyExc Unit × LHandle) :=
  lmethod (rawSeek off whence) s

/-- Synchronized Size, with the nested calls to the synchronized tell and
seek methods made while the Size lock is already held, exactly as in the
source body. -/
def LHandle.SizeL (s : LHandle) : Option (Except PyExc Nat × LHandle) :=
  match synchronizedRun (fun s1 =>
      match s1.tellL with
      | none => none
      | some (.error e, s2) => some ((.error e : Except PyExc Nat), s2)
      | some (.ok cur, s2) =>
        match s2.seekL 0 2 with
        | none => none
        | some (.error e, s3) =>
          match s3.seekL (cur : Int) 0 with
          | none => none
          | some (rfin, s4) =>
            match rfin with
            | .error e2 => some ((.error e2 : Except PyExc Nat), s4)
            | .ok _ => some ((.error e : Except PyExc Nat), s4)
        | some (.ok _, s3) =>
          match s3.tellL with
          | none => none
          | some (rsz, s4) =>
            match s4.seekL (cur : Int) 0 with
            | none => none
            | some (rfin, s5) =>
              match rsz with
              | .error e => some ((.error e : Except PyExc Nat), s5)
              | .ok size =>
                match rfin with
                | .error e2 => some ((.error e2 : Except PyExc Nat), s5)
                | .ok _ => some ((.ok size : Except PyExc Nat), s5)) s with
  | none => none
  | some (r, s2) => some (errorWrapper s.h.name r, s2)

/-- A GFile is a handle wired to the _Pythonlocker strategy (the thread
holds the lock count times, 0 when it enters from outside). -/
def mkGFileL (h : Handle) (count : Nat) : LHandle :=
  { h := h, kind := .python, count := count }

/-- A pathname, as a list of components. -/
abbrev FPath := List String

/-- The filesystem visible to the free functions: the set of existing
directory paths and the set of existing non-directory file paths. -/
structure FS where
  dirs : List FPath
  files : List FPath
  deriving Repr, DecidableEq

/-- Path rendered as a string for error filenames. -/
def pathStr (p : FPath) : String := String.intercalate "/" p

/-- os.path.isdir(path): True iff path exists and is a directory
(never raises). -/
def osIsdir (fs : FS) (p : FPath) : Bool := fs.dirs.contains p

/-- os.remove(path): delete a non-directory file; OSError(EISDIR-style)
on a directory, OSError(ENOENT) on a missing path. -/
def osRemove (fs : FS) (p : FPath) : Except PyExc FS :=
  if fs.dirs.contains p then
    .error (.base .osErrorC (some eisdirCode) "Is a directory" (some (pathStr p)))
  else if fs.files.contains p then
    .ok { fs with files := fs.files.filter (fun q => q != p) }
  else
    .error (.base .osErrorC (some enoentCode) "No such file or directory" (some (pathStr p)))

/-- shutil.rmtree(path): remove the directory and every path below it;
OSError(ENOENT) when the directory does not exist. -/
def rmtree (fs : FS) (p : FPath) : Except PyExc FS :=
  if fs.dirs.contains p then
    .ok { dirs := fs.dirs.filter (fun q => !(p.isPrefixOf q)),
          files := fs.files.filter (fun q => !(p.isPrefixOf q)) }
  else
    .error (.base .osErrorC (some enoentCode) "No such file or directory" (some (pathStr p)))

/-- IsDirectory: os.path.isdir under _func_error_wrapper. -/
def IsDirectory (fs : FS) (p : FPath) : Except PyExc Bool :=
  funcErrorWrapper (.ok (osIsdir fs p))

/-- Remove: os.remove under _func_error_wrapper. -/
def Remove (fs : FS) (p : FPath) : Except PyExc FS :=
  funcErrorWrapper (osRemove fs p)

/-- The body of DeleteRecursively: if IsDirectory(path): shutil.rmtree(path)
else: Remove(path).  Errors of the inner calls propagate to the outer
wrapper. -/
def deleteRecursivelyBody (fs : FS) (p : FPath) : Except PyExc FS :=
  match IsDirectory fs p with
  | .error e => .error e
  | .ok b => if b then rmtree fs p else Remove fs p

/-- DeleteRecursively: the body under _func_error_wrapper. -/
def DeleteRecursively (fs : FS) (p : FPath) : Except PyExc FS :=
  funcErrorWrapper (deleteRecursivelyBody fs p)

/-- f.startswith with the one-character prefix the source uses: the
first character of f is a dot. -/
def startsWithDot (f : String) : Bool :=
  match f.data with
  | [] => false
  | c :: _ => c = Char.ofNat 46

/-- ListDirectory over the entry basenames os.listdir returned for the
directory: files = os.listdir(directory); if not return_dotfiles:
files = those f with not f.startswith(dot); return files. -/
def ListDirectory (listdirEntries : List String) (return_dotfiles : Bool) : List String :=
  let files := listdirEntries
  if !return_dotfiles then files.filter (fun f => !(startsWithDot f)) else files

/-- A result that is either a value or a normalized error: the outcome
shape every public wrapper operation promises. -/
def normalOutcome {α : Type} (r : Except PyExc α) : Prop :=
  match r with
  | .ok _ => True
  | .error e => normalizedExc e = true

/-- A result that is either a value or an error the wrappers catch: one
of the three raw platform classes or one of the two normalized classes
(the latter because nested wrapped calls re-raise normalized errors
through an outer wrapper). -/
def okOrCatchable {α : Type} (r : Except PyExc α) : Prop :=
  match r with
  | .ok _ => True
  | .error e => rawPlatform e = true ∨ normalizedExc e = true

/-- The outcome of a raw file-object operation: a value or a raw
platform error. -/
def rawOutcome {α : Type} (r : Except PyExc α) : Prop :=
  match r with
  | .ok _ => True
  | .error e => rawPlatform e = true

theorem rawOutcome_okOrCatchable {α : Type} {r : Except PyExc α}
    (h : rawOutcome r) : okOrCatchable r := by
  cases r with
  | ok v => trivial
  | error e => exact Or.inl h

theorem errorWrapper_normal {α : Type} (name : String) {r : Except PyExc α}
    (h : okOrCatchable r) : normalOutcome (errorWrapper name r) := by
  cases r with
  | ok v => trivial
  | error e =>
    have hc : e.cls = .valueErrorC ∨ e.cls = .ioErrorC ∨ e.cls = .osErrorC ∨
        e.cls = .fileErrorC ∨ e.cls = .gosErrorC := by
      rcases h with h | h
      · simp only [rawPlatform, Bool.or_eq_true, decide_eq_true_eq] at h
        tauto
      · simp only [normalizedExc, Bool.or_eq_true, decide_eq_true_eq] at h
        tauto
    rcases hc with h | h | h | h | h <;>
      simp only [errorWrapper, h] <;>
      simp [isSubclass, ancestors, normalOutcome, normalizedExc, PyExc.cls]

theorem funcErrorWrapper_normal {α : Type} {r : Except PyExc α}
    (h : okOrCatchable r) : normalOutcome (funcErrorWrapper r) := by
  cases r with
  | ok v => trivial
  | error e =>
    have hc : e.cls = .valueErrorC ∨ e.cls = .ioErrorC ∨ e.cls = .osErrorC ∨
        e.cls = .fileErrorC ∨ e.cls = .gosErrorC := by
      rcases h with h | h
      · simp only [rawPlatform, Bool.or_eq_true, decide_eq_true_eq] at h
        tauto
      · simp only [normalizedExc, Bool.or_eq_true, decide_eq_true_eq] at h
        tauto
    rcases hc with h | h | h | h | h <;>
      simp only [funcErrorWrapper, h] <;>
      simp [isSubclass, ancestors, normalOutcome, normalizedExc, PyExc.cls]

theorem rawOutcome_closedErr : rawPlatform closedErr = true := by decide

theorem rawTell_outcome (st : FileSt) : rawOutcome (rawTell st).1 := by
  unfold rawTell
  split <;> simp [rawOutcome, rawPlatform, closedErr, PyExc.cls]

theorem rawSeek_outcome (off : Int) (whence : Nat) (st : FileSt) :
    rawOutcome (rawSeek off whence st).1 := by
  unfold rawSeek
  split_ifs <;> (try simp [rawOutcome, rawPlatform, closedErr, PyExc.cls])
  all_goals (split_ifs <;> simp [rawOutcome, rawPlatform, closedErr, PyExc.cls])

theorem rawRead_outcome (n : Int) (st : FileSt) : rawOutcome (rawRead n st).1 := by
  unfold rawRead
  split <;> simp [rawOutcome, rawPlatform, closedErr, PyExc.cls]

theorem rawWrite_outcome (data : List Nat) (st : FileSt) : rawOutcome (rawWrite data st).1 := by
  unfold rawWrite
  split <;> simp [rawOutcome, rawPlatform, closedErr, PyExc.cls]

theorem rawWritelines_outcome (seqs : List (List Nat)) (st : FileSt) :
    rawOutcome (rawWritelines seqs st).1 := by
  unfold rawWritelines
  split <;> simp [rawOutcome, rawPlatform, closedErr, PyExc.cls]

theorem rawReadline_outcome (maxLength : Int) (st : FileSt) :
    rawOutcome (rawReadline maxLength st).1 := by
  unfold rawReadline
  split <;> simp [rawOutcome, rawPlatform, closedErr, PyExc.cls]

theorem rawReadlines_outcome (sizehint : Option Nat) (st : FileSt) :
    rawOutcome (rawReadlines sizehint st).1 := by
  unfold rawReadlines
  split <;> simp [rawOutcome, rawPlatform, closedErr, PyExc.cls]

theorem rawTruncate_some_outcome (sz : Nat) (st : FileSt) :
    rawOutcome (rawTruncate (some sz) st).1 := by
  unfold rawTruncate
  split <;> simp [rawOutcome, rawPlatform, closedErr, PyExc.cls]

theorem rawFlush_outcome (st : FileSt) : rawOutcome (rawFlush st).1 := by
  unfold rawFlush
  split <;> simp [rawOutcome, rawPlatform, closedErr, PyExc.cls]

theorem rawClose_outcome (st : FileSt) : rawOutcome (rawClose st).1 := by
  simp [rawClose, rawOutcome]

theorem rawClosed_outcome (st : FileSt) : rawOutcome (rawClosed st).1 := by
  simp [rawClosed, rawOutcome]

theorem rawNext_outcome (st : FileSt) : rawOutcome (rawNext st).1 := by
  unfold rawNext
  split_ifs <;> (try simp [rawOutcome, rawPlatform, closedErr, PyExc.cls])
  all_goals (split_ifs <;> simp [rawOutcome, rawPlatform, closedErr, PyExc.cls])

/-- A method built from a raw operation (raw error or value) yields a
value or a normalized error. -/
theorem method_normal {α : Type} (raw : FileSt → Except PyExc α × FileSt) (h : Handle)
    (hraw : ∀ st, rawOutcome (raw st).1) : normalOutcome (method raw h).1 := by
  have := hraw h.fileSt
  unfold method
  exact errorWrapper_normal h.name (rawOutcome_okOrCatchable this)

theorem normalOutcome_okOrCatchable {α : Type} {r : Except PyExc α}
    (h : normalOutcome r) : okOrCatchable r := by
  cases r with
  | ok v => trivial
  | error e => exact Or.inr h

theorem tell_normal (h : Handle) : normalOutcome h.tell.1 := by
  have := method_normal rawTell h rawTell_outcome
  simpa [Handle.tell] using this

theorem seek_normal (h : Handle) (off : Int) (whence : Nat) :
    normalOutcome (h.seek off whence).1 := by
  have := method_normal (rawSeek off whence) h (rawSeek_outcome off whence)
  simpa [Handle.seek] using this

theorem tellOr_normal (fire : Bool) (inj : PyExc) (h : Handle)
    (hinj : rawPlatform inj = true) : normalOutcome (tellOr fire inj h).1 := by
  cases fire with
  | false => simpa [tellOr] using tell_normal h
  | true =>
    have : okOrCatchable (Except.error (α := Nat) inj) := Or.inl hinj
    simpa [tellOr] using errorWrapper_normal h.name this

theorem seekEndOr_normal (fire : Bool) (inj : PyExc) (h : Handle)
    (hinj : rawPlatform inj = true) : normalOutcome (seekEndOr fire inj h).1 := by
  cases fire with
  | false => simpa [seekEndOr] using seek_normal h 0 2
  | true =>
    have : okOrCatchable (Except.error (α := Unit) inj) := Or.inl hinj
    simpa [seekEndOr] using errorWrapper_normal h.name this

theorem sizeBody_normal (h : Handle) (fault : SizeFault) (inj : PyExc)
    (hinj : rawPlatform inj = true) : normalOutcome (sizeBody h fault inj).1 := by
  unfold sizeBody
  have t1 := tellOr_normal (fault == .tell1) inj h hinj
  rcases hx1 : tellOr (fault == .tell1) inj h with ⟨r1, h1⟩
  rw [hx1] at t1
  simp only [hx1]
  cases r1 with
  | error e => simpa using t1
  | ok cur =>
    have t2 := seekEndOr_normal (fault == .seekEnd) inj h1 hinj
    rcases hx2 : seekEndOr (fault == .seekEnd) inj h1 with ⟨r2, h2⟩
    rw [hx2] at t2
    simp only [hx2]
    cases r2 with
    | error e =>
      have t3 := seek_normal h2 (cur : Int) 0
      rcases hx3 : h2.seek (cur : Int) 0 with ⟨r3, h3⟩
      rw [hx3] at t3
      simp only [hx3]
      cases r3 with
      | error e2 => simpa using t3
      | ok u => simpa using t2
    | ok u =>
      have t4 := tellOr_normal (fault == .tell2) inj h2 hinj
      rcases hx4 : tellOr (fault == .tell2) inj h2 with ⟨r4, h4⟩
      rw [hx4] at t4
      simp only [hx4]
      have t5 := seek_normal h4 (cur : Int) 0
      rcases hx5 : h4.seek (cur : Int) 0 with ⟨r5, h5⟩
      rw [hx5] at t5
      simp only [hx5]
      cases r4 with
      | error e => simpa using t4
      | ok size =>
        cases r5 with
        | error e2 => simpa using t5
        | ok u2 => simp [normalOutcome]

theorem size_normal (h : Handle) (fault : SizeFault) (inj : PyExc)
    (hinj : rawPlatform inj = true) : normalOutcome (h.Size fault inj).1 := by
  have hb := sizeBody_normal h fault inj hinj
  unfold Handle.Size
  rcases hx : sizeBody h fault inj with ⟨r, h2⟩
  rw [hx] at hb
  simpa using errorWrapper_normal h.name (normalOutcome_okOrCatchable hb)

/-- The error wrapper never converts a failure into a success. -/
theorem errorWrapper_error {α : Type} (name : String) (e : PyExc) :
    ∃ e2, errorWrapper (α := α) name (.error e) = .error e2 := by
  simp only [errorWrapper]
  split_ifs <;> exact ⟨_, rfl⟩

theorem tell_open (h : Handle) (hcl : h.fileSt.closed = false) :
    h.tell = (.ok h.fileSt.offset, h) := by
  simp [Handle.tell, method, rawTell, hcl, errorWrapper]

theorem tell_closed_eval (h : Handle) (hcl : h.fileSt.closed = true) :
    h.tell = (.error (.base .fileErrorC (some eioCode) "I/O operation on closed file" (some h.name)), h) := by
  simp [Handle.tell, method, rawTell, hcl, errorWrapper, closedErr, isSubclass, ancestors,
    PyExc.cls, PyExc.pymsg]

theorem seek_restore (h : Handle) (cur : Nat) (hcl : h.fileSt.closed = false) :
    h.seek (cur : Int) 0 = (.ok (), { h with fileSt := { h.fileSt with offset := cur } }) := by
  have hge : ¬ ((cur : Int) < 0) := by omega
  simp [Handle.seek, method, rawSeek, hcl, errorWrapper, hge, Int.toNat_natCast]

theorem seek_end_open (h : Handle) (hcl : h.fileSt.closed = false) :
    h.seek 0 2 = (.ok (), { h with fileSt := { h.fileSt with offset := h.fileSt.content.length } }) := by
  have hge : ¬ ((h.fileSt.content.length : Int) < 0) := by omega
  simp [Handle.seek, method, rawSeek, hcl, errorWrapper, hge, Int.toNat_natCast]

theorem errorWrapper_ok {α : Type} (name : String) (v : α) :
    errorWrapper name (.ok v) = .ok v := rfl

/-- C2: for every handle at any byte offset, Size() returns the byte size
of the file (when nothing fails and the handle is open) and on every exit
path leaves the offset that was current before the call, even when the
intermediate seek-to-end or tell fails; content and closed flag are also
untouched. -/
theorem c2_size_restores_offset (h : Handle) (fault : SizeFault) (inj : PyExc) :
    ((h.Size fault inj).2.fileSt.offset = h.fileSt.offset
      ∧ (h.Size fault inj).2.fileSt.content = h.fileSt.content
      ∧ (h.Size fault inj).2.fileSt.closed = h.fileSt.closed)
    ∧ (fault = .ok → h.fileSt.closed = false →
        (h.Size fault inj).1 = .ok h.fileSt.content.length) := by
  obtain ⟨eN, heN⟩ := errorWrapper_error (α := Nat) h.name inj
  obtain ⟨eU, heU⟩ := errorWrapper_error (α := Unit) h.name inj
  cases hcl : h.fileSt.closed <;> cases fault <;>
    simp [Handle.Size, sizeBody, tellOr, seekEndOr, hcl, heN, heU, errorWrapper_ok,
      tell_open, tell_closed_eval, seek_restore, seek_end_open]

/-- C1 (code bug at truncate with no size argument): every public
operation other than an argumentless truncate — read, write, writelines,
readline, readlines, tell, seek, truncate with an integer size, flush,
close, Size (under a platform failure of any of the three raw classes at
any of its internal calls), the closed property and line iteration —
returns a value or raises exactly one normalized error of class
FileError or GOSError, on any state of the handle.  But truncate()
invoked with its default new_size=None passes None to the platform
truncate, whose integer conversion raises TypeError — a class none of
the wrapper clauses catches — so at that input a raw, un-normalized
platform error escapes to the caller, against the claim and against the
method's own docstring (which promises truncation to 0 bytes). -/
theorem c1_operations_normalized (h : Handle) (n maxLength off : Int)
    (data : List Nat) (seqs : List (List Nat)) (sizehint : Option Nat)
    (whence sz : Nat) (fault : SizeFault)
    (code : Option Int) (msg : String) (fn : Option String) :
    (normalOutcome (h.read n).1
    ∧ normalOutcome (h.write data).1
    ∧ normalOutcome (h.writelines seqs).1
    ∧ normalOutcome (h.readline maxLength).1
    ∧ normalOutcome (h.readlines sizehint).1
    ∧ normalOutcome h.tell.1
    ∧ normalOutcome (h.seek off whence).1
    ∧ normalOutcome (h.truncate (some sz)).1
    ∧ normalOutcome h.flush.1
    ∧ normalOutcome h.close.1
    ∧ normalOutcome h.closedProp.1
    ∧ normalOutcome h.next.1
    ∧ normalOutcome (h.Size fault (.base .valueErrorC code msg fn)).1
    ∧ normalOutcome (h.Size fault (.base .ioErrorC code msg fn)).1
    ∧ normalOutcome (h.Size fault (.base .osErrorC code msg fn)).1)
    ∧ (((⟨"f", "w+", ⟨[], 0, false⟩⟩ : Handle).truncate none).1
        = .error (.base .typeErrorC none "an integer is required" none)
      ∧ normalizedExc (.base .typeErrorC none "an integer is required" none) = false
      ∧ rawPlatform (.base .typeErrorC none "an integer is required" none) = false) := by
  constructor
  · refine ⟨?_, ?_, ?_, ?_, ?_, ?_, ?_, ?_, ?_, ?_, ?_, ?_, ?_, ?_, ?_⟩
    · simpa [Handle.read] using method_normal (rawRead n) h (rawRead_outcome n)
    · simpa [Handle.write] using method_normal (rawWrite data) h (rawWrite_outcome data)
    · simpa [Handle.writelines] using method_normal (rawWritelines seqs) h (rawWritelines_outcome seqs)
    · simpa [Handle.readline] using method_normal (rawReadline maxLength) h (rawReadline_outcome maxLength)
    · simpa [Handle.readlines] using method_normal (rawReadlines sizehint) h (rawReadlines_outcome sizehint)
    · exact tell_normal h
    · exact seek_normal h off whence
    · simpa [Handle.truncate] using method_normal (rawTruncate (some sz)) h (rawTruncate_some_outcome sz)
    · simpa [Handle.flush] using method_normal rawFlush h rawFlush_outcome
    · simpa [Handle.close] using method_normal rawClose h rawClose_outcome
    · simpa [Handle.closedProp] using method_normal rawClosed h rawClosed_outcome
    · simpa [Handle.next] using method_normal rawNext h rawNext_outcome
    · exact size_normal h fault (.base .valueErrorC code msg fn) rfl
    · exact size_normal h fault (.base .ioErrorC code msg fn) rfl
    · exact size_normal h fault (.base .osErrorC code msg fn) rfl
  · exact ⟨rfl, rfl, rfl⟩

/-- Witness for C2: a concrete open handle, no fault: Size is the content
length and the offset comes back. -/
theorem c2_size_restores_offset_witness :
    ((⟨"f", "r", ⟨[7, 8, 9], 2, false⟩⟩ : Handle).Size .ok closedErr).1 = .ok 3
    ∧ ((⟨"f", "r", ⟨[7, 8, 9], 2, false⟩⟩ : Handle).Size .ok closedErr).2.fileSt.offset = 2 := by
  have t := c2_size_restores_offset ⟨"f", "r", ⟨[7, 8, 9], 2, false⟩⟩ .ok closedErr
  exact ⟨by simpa using t.2 rfl rfl, t.1.1⟩

/-- C3: on a freshly opened read/write handle (empty content, offset 0,
open — the state an open in w+ mode produces), write(data) then seek(0)
then read() returns exactly data, for any byte sequence data. -/
theorem c3_write_seek_read (data : List Nat) (h : Handle)
    (hfresh : h.fileSt = { content := [], offset := 0, closed := false }) :
    (h.write data).1 = .ok ()
    ∧ ((h.write data).2.seek 0 0).1 = .ok ()
    ∧ ((((h.write data).2.seek 0 0).2).read (-1)).1 = .ok data := by
  refine ⟨?_, ?_, ?_⟩ <;>
    simp [Handle.write, Handle.seek, Handle.read, method, rawWrite, rawSeek, rawRead,
      writeSt, writeAt, hfresh, errorWrapper]

/-- Witness for C3 on a concrete byte sequence. -/
theorem c3_write_seek_read_witness :
    ((⟨"f", "w+", ⟨[], 0, false⟩⟩ : Handle).write [4, 5, 6]).1 = .ok ()
    ∧ (((⟨"f", "w+", ⟨[], 0, false⟩⟩ : Handle).write [4, 5, 6]).2.seek 0 0).1 = .ok ()
    ∧ (((((⟨"f", "w+", ⟨[], 0, false⟩⟩ : Handle).write [4, 5, 6]).2.seek 0 0).2).read (-1)).1
        = .ok [4, 5, 6] :=
  c3_write_seek_read [4, 5, 6] ⟨"f", "w+", ⟨[], 0, false⟩⟩ rfl

/-- C4: once close() has completed, read, write, seek and flush all raise
FileError — never a raw platform error and never GOSError — carrying the
EIO code and the handle's path, and they leave the handle in the CLOSED
state: CLOSED is terminal. -/
theorem c4_closed_is_terminal (h : Handle) (n off : Int) (data : List Nat) (whence : Nat) :
    ((h.close).2.fileSt.closed = true)
    ∧ (((h.close).2.read n).1
        = .error (.base .fileErrorC (some eioCode) "I/O operation on closed file" (some h.name))
      ∧ ((h.close).2.read n).2 = (h.close).2)
    ∧ (((h.close).2.write data).1
        = .error (.base .fileErrorC (some eioCode) "I/O operation on closed file" (some h.name))
      ∧ ((h.close).2.write data).2 = (h.close).2)
    ∧ (((h.close).2.seek off whence).1
        = .error (.base .fileErrorC (some eioCode) "I/O operation on closed file" (some h.name))
      ∧ ((h.close).2.seek off whence).2 = (h.close).2)
    ∧ (((h.close).2.flush).1
        = .error (.base .fileErrorC (some eioCode) "I/O operation on closed file" (some h.name))
      ∧ ((h.close).2.flush).2 = (h.close).2) := by
  refine ⟨rfl, ⟨?_, ?_⟩, ⟨?_, ?_⟩, ⟨?_, ?_⟩, ⟨?_, ?_⟩⟩ <;>
    simp [Handle.close, Handle.read, Handle.write, Handle.seek, Handle.flush, method,
      rawClose, rawRead, rawWrite, rawSeek, rawFlush, errorWrapper, closedErr,
      isSubclass, ancestors, PyExc.cls, PyExc.pymsg]

/-- C5: close() is idempotent: the first close returns normally and sets
the closed flag; on a closed handle close() returns normally and changes
nothing, so any number of further close() calls — including the one the
with-statement exit makes — return normally and never raise. -/
theorem c5_close_idempotent (h : Handle) :
    ((h.close).1 = .ok () ∧ (h.close).2.fileSt.closed = true)
    ∧ ((h.close).2.close = (Except.ok (), (h.close).2))
    ∧ ((h.close).2.exitWith = (Except.ok (), (h.close).2))
    ∧ (∀ k : Nat, (fun x : Handle => (x.close).2)^[k] ((h.close).2) = (h.close).2) := by
  refine ⟨⟨rfl, rfl⟩, ?_, ?_, ?_⟩
  · simp [Handle.close, method, rawClose, errorWrapper]
  · simp [Handle.exitWith, Handle.close, method, rawClose, errorWrapper]
  · intro k
    induction k with
    | zero => rfl
    | succ m ih =>
      rw [Function.iterate_succ_apply', ih]
      simp [Handle.close, method, rawClose, errorWrapper]

/-- A synchronized method call never blocks (both locker kinds acquire
immediately for the calling thread), produces exactly the unsynchronized
method result, and exits with the hold count it entered with. -/
theorem lmethod_eval {α : Type} (raw : FileSt → Except PyExc α × FileSt) (s : LHandle) :
    lmethod raw s = some ((method raw s.h).1,
      { h := (method raw s.h).2, kind := s.kind, count := s.count }) := by
  cases hk : s.kind <;>
    simp [lmethod, synchronizedRun, acquire, release, method, hk]

theorem tellL_eval (s : LHandle) :
    s.tellL = some (s.h.tell.1, { h := s.h.tell.2, kind := s.kind, count := s.count }) := by
  simpa [LHandle.tellL, Handle.tell] using lmethod_eval rawTell s

theorem seekL_eval (s : LHandle) (off : Int) (whence : Nat) :
    s.seekL off whence = some ((s.h.seek off whence).1,
      { h := (s.h.seek off whence).2, kind := s.kind, count := s.count }) := by
  simpa [LHandle.seekL, Handle.seek] using lmethod_eval (rawSeek off whence) s

/-- C6: every synchronized public operation acquires the lock on entry
and releases it on every exit path, so the hold count after the call is
the one from before, for both locking strategies and for value and error
outcomes alike; and Size on a GFile — which re-enters the synchronized
seek and tell while already holding the reentrant lock — never blocks and
also exits with its entry hold count. -/
theorem c6_lock_balanced {α : Type} (raw : FileSt → Except PyExc α × FileSt) (s : LHandle)
    (h : Handle) (c : Nat) :
    (∃ r s2, lmethod raw s = some (r, s2) ∧ s2.count = s.count ∧ s2.kind = s.kind)
    ∧ (∃ r s2, (mkGFileL h c).SizeL = some (r, s2) ∧ s2.count = c ∧ s2.kind = .python) := by
  constructor
  · exact ⟨_, _, lmethod_eval raw s, rfl, rfl⟩
  · have hge1 : ¬ ((h.fileSt.content.length : Int) < 0) := by omega
    have hge2 : ¬ ((h.fileSt.offset : Int) < 0) := by omega
    cases hcl : h.fileSt.closed <;>
      simp [LHandle.SizeL, synchronizedRun, acquire, release, mkGFileL, tellL_eval, seekL_eval,
        Handle.tell, Handle.seek, method, rawTell, rawSeek, hcl, hge1, hge2,
        errorWrapper, closedErr, isSubclass, ancestors, PyExc.cls, PyExc.pymsg,
        Int.toNat_natCast] <;>
      exact ⟨_, _, ⟨rfl, rfl⟩, rfl, rfl⟩

/-- C7: over any entry list os.listdir produces (which never contains the
special entries "." and ".."), ListDirectory keeps them out in both query
modes; an entry beginning with "." is in the default result never, and in
the return_dotfiles result always; in particular a directory listing
exactly a regular file and a dotfile yields only the regular file by
default and both when the flag is set. -/
theorem c7_listDirectory (entries : List String)
    (hdot : "." ∉ entries) (hdotdot : ".." ∉ entries) :
    ((∀ b, "." ∉ ListDirectory entries b ∧ ".." ∉ ListDirectory entries b)
      ∧ (∀ f, f ∈ ListDirectory entries false ↔ (f ∈ entries ∧ startsWithDot f = false))
      ∧ ListDirectory entries true = entries)
    ∧ ListDirectory ["a.txt", ".hidden"] false = ["a.txt"]
    ∧ ListDirectory ["a.txt", ".hidden"] true = ["a.txt", ".hidden"] := by
  refine ⟨⟨?_, ?_, ?_⟩, ?_, ?_⟩
  · intro b
    cases b with
    | true => exact ⟨hdot, hdotdot⟩
    | false =>
      constructor
      · intro hmem
        exact hdot (List.mem_of_mem_filter hmem)
      · intro hmem
        exact hdotdot (List.mem_of_mem_filter hmem)
  · intro f
    simp [ListDirectory, List.mem_filter]
  · rfl
  · decide
  · decide

/-- Witness for C7 on the concrete two-entry listing. -/
theorem c7_listDirectory_witness :
    ListDirectory ["a.txt", ".hidden"] false = ["a.txt"]
    ∧ ListDirectory ["a.txt", ".hidden"] true = ["a.txt", ".hidden"] :=
  (c7_listDirectory ["a.txt", ".hidden"] (by decide) (by decide)).2

/-- C8: DeleteRecursively removes the whole subtree (the directory itself
and every file and directory under it, leaving everything else) when the
path is a directory, removes the single file when the path is an existing
non-directory, and fails with a GOSError (the PathError kind) when the
path does not exist. -/
theorem c8_deleteRecursively (fs : FS) (p : FPath) :
    (fs.dirs.contains p = true →
      ∃ fs2, DeleteRecursively fs p = .ok fs2
        ∧ (∀ q : FPath, p.isPrefixOf q →
            fs2.dirs.contains q = false ∧ fs2.files.contains q = false)
        ∧ (∀ q : FPath, ¬ p.isPrefixOf q →
            (fs2.dirs.contains q = fs.dirs.contains q
              ∧ fs2.files.contains q = fs.files.contains q)))
    ∧ (fs.dirs.contains p = false → fs.files.contains p = true →
        DeleteRecursively fs p = .ok { fs with files := fs.files.filter (fun q => q != p) })
    ∧ (fs.dirs.contains p = false → fs.files.contains p = false →
        ∃ e, DeleteRecursively fs p = .error e ∧ e.cls = .gosErrorC) := by
  refine ⟨?_, ?_, ?_⟩
  · intro hdir
    simp only [List.elem_iff] at hdir
    refine ⟨{ dirs := fs.dirs.filter (fun q => !(p.isPrefixOf q)),
              files := fs.files.filter (fun q => !(p.isPrefixOf q)) }, ?_, ?_, ?_⟩
    · simp [DeleteRecursively, deleteRecursivelyBody, IsDirectory, osIsdir, funcErrorWrapper,
        rmtree, hdir]
    · intro q hpre
      constructor <;> simp [List.mem_filter, hpre]
    · intro q hpre
      rw [Bool.not_eq_true] at hpre
      constructor <;> simp [List.mem_filter, hpre]
  · intro hdir hfile
    simp at hdir
    simp only [List.elem_iff] at hfile
    simp [DeleteRecursively, deleteRecursivelyBody, IsDirectory, osIsdir, funcErrorWrapper,
      Remove, osRemove, hdir, hfile]
  · intro hdir hfile
    refine ⟨.wrap .gosErrorC none (.wrap .gosErrorC none
      (.base .osErrorC (some enoentCode) "No such file or directory" (some (pathStr p)))),
      ?_, rfl⟩
    simp at hdir hfile
    simp [DeleteRecursively, deleteRecursivelyBody, IsDirectory, osIsdir, funcErrorWrapper,
      Remove, osRemove, hdir, hfile, isSubclass, ancestors, PyExc.cls, PyExc.pymsg]

/-- Witness for C8 on a concrete filesystem: a directory ["d"] holding a
file, a plain file ["y"], and a missing path ["z"]. -/
theorem c8_deleteRecursively_witness :
    (∃ fs2, DeleteRecursively ⟨[["d"]], [["d", "x"], ["y"]]⟩ ["d"] = .ok fs2
      ∧ (∀ q : FPath, (["d"] : FPath).isPrefixOf q →
          fs2.dirs.contains q = false ∧ fs2.files.contains q = false)
      ∧ (∀ q : FPath, ¬ (["d"] : FPath).isPrefixOf q →
          (fs2.dirs.contains q = (FS.mk [["d"]] [["d", "x"], ["y"]]).dirs.contains q
            ∧ fs2.files.contains q = (FS.mk [["d"]] [["d", "x"], ["y"]]).files.contains q)))
    ∧ DeleteRecursively ⟨[["d"]], [["d", "x"], ["y"]]⟩ ["y"]
        = .ok { dirs := [["d"]], files := [["d", "x"]] }
    ∧ (∃ e, DeleteRecursively ⟨[["d"]], [["d", "x"], ["y"]]⟩ ["z"] = .error e
        ∧ e.cls = .gosErrorC) := by
  refine ⟨(c8_deleteRecursively ⟨[["d"]], [["d", "x"], ["y"]]⟩ ["d"]).1 (by decide), ?_,
    (c8_deleteRecursively ⟨[["d"]], [["d", "x"], ["y"]]⟩ ["z"]).2.2 (by decide) (by decide)⟩
  have t2 := (c8_deleteRecursively ⟨[["d"]], [["d", "x"], ["y"]]⟩ ["y"]).2.1
    (by decide) (by decide)
  rw [t2]
  rfl

/-- C9 counterexample: an IOError already carrying the path "other.txt",
raised on a handle whose path is "mine.txt", is normalized into a
FileError that carries "mine.txt" — the path already present on the
underlying error is overwritten, not preserved. -/
theorem c9_counterexample :
    errorWrapper (α := Unit) "mine.txt"
        (.error (.base .ioErrorC (some 13) "denied" (some "other.txt")))
      = .error (.wrap .fileErrorC none (.base .ioErrorC (some 13) "denied" (some "mine.txt")))
    ∧ carriedPath (.wrap .fileErrorC none (.base .ioErrorC (some 13) "denied" (some "mine.txt")))
        = some "mine.txt"
    ∧ ¬ (carriedPath (.wrap .fileErrorC none
          (.base .ioErrorC (some 13) "denied" (some "mine.txt"))) = some "other.txt") :=
  ⟨rfl, rfl, by decide⟩

/-- C9 amended: an I/O-class failure during a handle operation is
remapped to FileError, and the handle's path is attached to the
underlying error unconditionally — overwriting any path the error
already carried — so the normalized FileError always carries the
handle's path. -/
theorem c9_amended (name : String) (e : PyExc) (hio : isSubclass e.cls .ioErrorC = true) :
    errorWrapper (α := Unit) name (.error e)
      = .error (.wrap .fileErrorC none (e.setFilename name))
    ∧ carriedPath (.wrap .fileErrorC none (e.setFilename name)) = some name := by
  have hnv : isSubclass e.cls .valueErrorC = false := by
    rcases e with ⟨c, code, m, f⟩ | ⟨c, f, inner⟩ <;> cases c <;>
      simp_all [PyExc.cls, isSubclass, ancestors]
  constructor
  · simp [errorWrapper, hio, hnv]
  · rcases e with ⟨c, code, m, f⟩ | ⟨c, f, inner⟩ <;> simp [PyExc.setFilename, carriedPath]

/-- Witness for C9's amended statement at a concrete IOError that already
carried a different path. -/
theorem c9_amended_witness :
    errorWrapper (α := Unit) "mine.txt"
        (.error (.base .ioErrorC (some 13) "denied" (some "other.txt")))
      = .error (.wrap .fileErrorC none
          ((PyExc.base .ioErrorC (some 13) "denied" (some "other.txt")).setFilename "mine.txt"))
    ∧ carriedPath (.wrap .fileErrorC none
        ((PyExc.base .ioErrorC (some 13) "denied" (some "other.txt")).setFilename "mine.txt"))
      = some "mine.txt" :=
  c9_amended "mine.txt" (.base .ioErrorC (some 13) "denied" (some "other.txt")) (by decide)

/-- C10: FileError derives from IOError and GOSError derives from
OSError, so every normalized error either wrapper raises on a raw
platform failure is still catchable as IOError or as OSError; and the
normalized error wraps the original underlying error (the IOError and
OSError branches wrap the exception object itself — the method wrapper
after assigning the handle path onto it — and the ValueError branch
carries the original message). -/
theorem c10_error_subclassing (name : String) (e : PyExc) (hraw : rawPlatform e = true) :
    isSubclass .fileErrorC .ioErrorC = true
    ∧ isSubclass .gosErrorC .osErrorC = true
    ∧ (∃ e2, errorWrapper (α := Unit) name (.error e) = .error e2
        ∧ (isSubclass e2.cls .ioErrorC = true ∨ isSubclass e2.cls .osErrorC = true)
        ∧ (e2.innerOf = some (e.setFilename name) ∨ e2.innerOf = some e ∨ e2.pymsg = e.pymsg))
    ∧ (∃ e3, funcErrorWrapper (α := Unit) (.error e) = .error e3
        ∧ (isSubclass e3.cls .ioErrorC = true ∨ isSubclass e3.cls .osErrorC = true)
        ∧ (e3.innerOf = some e ∨ e3.pymsg = e.pymsg)) := by
  have hc : e.cls = .valueErrorC ∨ e.cls = .ioErrorC ∨ e.cls = .osErrorC := by
    simp only [rawPlatform, Bool.or_eq_true, decide_eq_true_eq] at hraw
    tauto
  refine ⟨rfl, rfl, ?_, ?_⟩
  · rcases hc with h | h | h
    · refine ⟨.base .fileErrorC (some eioCode) e.pymsg (some name), ?_, Or.inl rfl,
        Or.inr (Or.inr rfl)⟩
      simp [errorWrapper, h, isSubclass, ancestors]
    · refine ⟨.wrap .fileErrorC none (e.setFilename name), ?_, Or.inl rfl, Or.inl rfl⟩
      simp [errorWrapper, h, isSubclass, ancestors]
    · refine ⟨.wrap .gosErrorC none e, ?_, Or.inr rfl, Or.inr (Or.inl rfl)⟩
      simp [errorWrapper, h, isSubclass, ancestors]
  · rcases hc with h | h | h
    · refine ⟨.base .fileErrorC (some eioCode) e.pymsg none, ?_, Or.inl rfl,
        Or.inr rfl⟩
      simp [funcErrorWrapper, h, isSubclass, ancestors]
    · refine ⟨.wrap .fileErrorC none e, ?_, Or.inl rfl, Or.inl rfl⟩
      simp [funcErrorWrapper, h, isSubclass, ancestors]
    · refine ⟨.wrap .gosErrorC none e, ?_, Or.inr rfl, Or.inl rfl⟩
      simp [funcErrorWrapper, h, isSubclass, ancestors]

/-- Witness for C10 at a concrete raw OSError. -/
theorem c10_error_subclassing_witness :
    isSubclass .fileErrorC .ioErrorC = true
    ∧ isSubclass .gosErrorC .osErrorC = true
    ∧ (∃ e2, errorWrapper (α := Unit) "f"
          (.error (.base .osErrorC (some 2) "No such file or directory" none)) = .error e2
        ∧ (isSubclass e2.cls .ioErrorC = true ∨ isSubclass e2.cls .osErrorC = true)
        ∧ (e2.innerOf = some ((PyExc.base .osErrorC (some 2) "No such file or directory"
              none).setFilename "f")
          ∨ e2.innerOf = some (.base .osErrorC (some 2) "No such file or directory" none)
          ∨ e2.pymsg = (PyExc.base .osErrorC (some 2) "No such file or directory" none).pymsg))
    ∧ (∃ e3, funcErrorWrapper (α := Unit)
          (.error (.base .osErrorC (some 2) "No such file or directory" none)) = .error e3
        ∧ (isSubclass e3.cls .ioErrorC = true ∨ isSubclass e3.cls .osErrorC = true)
        ∧ (e3.innerOf = some (.base .osErrorC (some 2) "No such file or directory" none)
          ∨ e3.pymsg = (PyExc.base .osErrorC (some 2) "No such file or directory" none).pymsg)) :=
  c10_error_subclassing "f" (.base .osErrorC (some 2) "No such file or directory" none)
    (by decide)
